import Mathlib

/-!
# Verification of the vegetation CA engine

Shallow embedding of the computational core of the vegetation cellular-automaton
repository: the neighbor-offset builder, the state initializer (LCG-based), the
step kernels of the four source variants (`src/unnamed/part_001`,
`src/unnamed/part_002`, `src/unnamed/part_003`, `src/src/App.jsx`), the spatial
metrics engine (means / variance / Moran-style autocorrelation / flood-fill
clustering) and the reference step-loop's bounded metrics history.

Numbers are modelled by exact rationals `ℚ` (the JS engine stores fields in
`Float32Array` and computes in IEEE doubles; the claims under check are about
the exact update formulas, clamping, counting and control flow, none of which
depend on rounding).  JS 32-bit integer coercions (`|0`, `& 0xffffffff`,
`>>> 0`) are modelled exactly on `ℤ`.
-/

namespace VegCA

/-- JS `ToInt32`: reduce an integer into `[-2^31, 2^31)`.  This is what both
`seed | 0` and `x & 0xffffffff` (AND with `ToInt32 0xffffffff = -1`) compute. -/
def toInt32 (a : Int) : Int := (a + 2 ^ 31) % 2 ^ 32 - 2 ^ 31

/-- JS `x >>> 0` (`ToUint32`): the representative of `x` modulo `2^32` in
`[0, 2^32)`. -/
def toUInt32 (a : Int) : Int := a % 2 ^ 32

/-- One step of the initializer's generator:
`s = (s * 1664525 + 1013904223) & 0xffffffff`
(identical in part_001 line 121, part_002 line 82 and part_003 line 65). -/
def lcgNext (s : Int) : Int := toInt32 (s * 1664525 + 1013904223)

/-- The value returned by one `rng()` call given the post-update internal
state: `(s >>> 0) / 0xffffffff`. -/
def rngVal (s : Int) : ℚ := ((toUInt32 s : Int) : ℚ) / 4294967295

/-- The `clamp` of part_001 line 29 (and `Math.max(0, Math.min(1, ·))` in the other
variants): clamp to `[0, 1]`. -/
def clamp01 (x : ℚ) : ℚ := max 0 (min 1 x)

/-- The clamp `Math.max(0, Math.min(2, ·))` used for the water field in part_002
line 62: clamp to `[0, 2]`. -/
def clamp02 (x : ℚ) : ℚ := max 0 (min 2 x)

/-- Toroidal flat index `((y+dy+N) % N) * N + (x+dx+N) % N` as computed in JS
(`%` is the truncated remainder, `Int.tmod`).  For `0 ≤ x, y < N` and
`|dx|, |dy| ≤ N` — every access the sources perform with their documented
radii — both operands of `tmod` are nonnegative and this is the mathematical
mod, so the result is `< N*N`. -/
def torIdx (N : Nat) (x y dx dy : Int) : Nat :=
  (((y + dy + N).tmod N) * N + ((x + dx + N).tmod N)).toNat

/-- The `buildOffsets` of the variants (part_001 lines 31-37, part_002 lines 12-18, part_003
lines 50-56, App.jsx lines 45-55): all `(dx, dy)` with `dx²+dy² ≤ r²`, `dy`
in the outer loop, each loop running over `-r .. r`. -/
def buildOffsets (r : Nat) : List (Int × Int) :=
  (List.range (2 * r + 1)).flatMap fun (dyi : Nat) =>
    (List.range (2 * r + 1)).filterMap fun (dxi : Nat) =>
      if ((dxi : Int) - r) * ((dxi : Int) - r) + ((dyi : Int) - r) * ((dyi : Int) - r)
          ≤ (r : Int) * r
      then some (((dxi : Int) - r, (dyi : Int) - r) : Int × Int) else none

/-- A grid state: the three fields of the CA, flat-indexed (`i = y*N + x`).
The sources hold them in three `Float32Array(N*N)`s; cells are read through
total functions here. -/
structure CAState where
  v : Nat → ℚ
  w : Nat → ℚ
  σ : Nat → ℚ

/-- Sum of a field over the offsets of a disk kernel, as accumulated by
`for (const [dx, dy] of OFF) sum += f[((y+dy+N)%N)*N + (x+dx+N)%N]`. -/
def kernelSum (g : Nat → ℚ) (N : Nat) (x y : Int) (offs : List (Int × Int)) : ℚ :=
  (offs.map fun d => g (torIdx N x y d.1 d.2)).sum

/-- Neighborhood mean: `sum / OFF.length`. -/
def kernelMean (g : Nat → ℚ) (N : Nat) (x y : Int) (offs : List (Int × Int)) : ℚ :=
  kernelSum g N x y offs / (offs.length : ℚ)

/-- Parameter set destructured by part_002's `caStep`
(`{ R, E, alpha, mort, eps, gp, gm, wd }`). -/
structure Params2 where
  R : ℚ
  E : ℚ
  alpha : ℚ
  mort : ℚ
  eps : ℚ
  gp : ℚ
  gm : ℚ
  wd : ℚ

/-- Parameter set destructured by part_001's and part_003's `caStep`
(`{ R, E, alpha, beta, mort, eps, gp, gm }`). -/
structure Params1 where
  R : ℚ
  E : ℚ
  alpha : ℚ
  beta : ℚ
  mort : ℚ
  eps : ℚ
  gp : ℚ
  gm : ℚ

/-- The `caStep` of part_002 (lines 44-78), the v² Klausmeier kernel:
water `w' = max(0, min(2, w + R - E·w - α·v²·w + wd·(wmean - w)))`,
vegetation `v' = clamp01(v + α·v²·w·(1+0.5σ) - mort·v + ε·vseed·w·(1-v))`,
soil `σ' = clamp01(σ + gp·v·(1-σ) - gm·(1-v)·σ)`.
All three new fields read only the old state (synchronous update). -/
def caStep2 (st : CAState) (p : Params2) (N : Nat) (WOFF SOFF : List (Int × Int)) :
    CAState where
  v := fun i =>
    let y : Int := (i / N : Nat)
    let x : Int := (i % N : Nat)
    let vi := st.v i
    let wi := st.w i
    let si := st.σ i
    let vseed := kernelMean st.v N x y SOFF
    let growth := p.alpha * vi * vi * wi * (1 + 0.5 * si)
    let colonise := p.eps * vseed * wi * (1 - vi)
    clamp01 (vi + growth - p.mort * vi + colonise)
  w := fun i =>
    let y : Int := (i / N : Nat)
    let x : Int := (i % N : Nat)
    let vi := st.v i
    let wi := st.w i
    let wmean := kernelMean st.w N x y WOFF
    let uptake := p.alpha * vi * vi * wi
    clamp02 (wi + p.R - p.E * wi - uptake + p.wd * (wmean - wi))
  σ := fun i =>
    let vi := st.v i
    let si := st.σ i
    clamp01 (si + p.gp * vi * (1 - si) - p.gm * (1 - vi) * si)

/-- The `caStep` of part_001 (lines 43-112):
water `w' = clamp01(w + R - E·w - v·w·(1+σ) - 0.7·vLong·w + 0.8·wflow)`,
vegetation `v' = clamp01(v + (α·w·σ/(1+β·w))·v - mort·v + ε·vseed·(1-v))`,
soil `σ' = clamp01(σ + gp·v·(1-σ) - gm·(1-v)·σ)`.
`vLong` is the mean of `v` over the water kernel, `wflow = wavg - w`. -/
def caStep1 (st : CAState) (p : Params1) (N : Nat) (WOFF SOFF : List (Int × Int)) :
    CAState where
  v := fun i =>
    let y : Int := (i / N : Nat)
    let x : Int := (i % N : Nat)
    let vi := st.v i
    let wi := st.w i
    let si := st.σ i
    let vseed := kernelMean st.v N x y SOFF
    clamp01 (vi + (p.alpha * wi * si / (1 + p.beta * wi)) * vi
      - p.mort * vi + p.eps * vseed * (1 - vi))
  w := fun i =>
    let y : Int := (i / N : Nat)
    let x : Int := (i % N : Nat)
    let vi := st.v i
    let wi := st.w i
    let si := st.σ i
    let wavg := kernelMean st.w N x y WOFF
    let wflow := wavg - wi
    let vLong := kernelMean st.v N x y WOFF
    clamp01 (wi + p.R - p.E * wi - vi * wi * (1 + si) - 0.7 * vLong * wi + 0.8 * wflow)
  σ := fun i =>
    let vi := st.v i
    let si := st.σ i
    clamp01 (si + p.gp * vi * (1 - si) - p.gm * (1 - vi) * si)

/-- The `caStep` of part_003 (lines 77-105); same parameter record shape as
part_001, diffusion strength `0.35`, no long-range competition term.  The
source fixes `N = 80` at module level; the grid size is a parameter here, the
algorithm is unchanged. -/
def caStep3 (st : CAState) (p : Params1) (N : Nat) (WOFF SOFF : List (Int × Int)) :
    CAState where
  v := fun i =>
    let y : Int := (i / N : Nat)
    let x : Int := (i % N : Nat)
    let vi := st.v i
    let wi := st.w i
    let si := st.σ i
    let vSeed := kernelMean st.v N x y SOFF
    let growth := p.alpha * wi * si / (1 + p.beta * wi)
    clamp01 (vi + growth * vi - p.mort * vi + p.eps * vSeed * (1 - vi))
  w := fun i =>
    let y : Int := (i / N : Nat)
    let x : Int := (i % N : Nat)
    let vi := st.v i
    let wi := st.w i
    let si := st.σ i
    let wFlow := kernelMean st.w N x y WOFF - wi
    clamp01 (wi + p.R - p.E * wi - vi * wi * (1 + si) + 0.35 * wFlow)
  σ := fun i =>
    let vi := st.v i
    let si := st.σ i
    clamp01 (si + p.gp * vi * (1 - si) - p.gm * (1 - vi) * si)

/-- The `step` of src/App.jsx (lines 86-151).  Only `R` is a live parameter; the
other coefficients are module constants (`E=0.45`, `alpha=4`, `beta=2`,
`mort=0.18`, `eps=0.01`, `waterDiff=0.8`, `longComp=0.6`).  Its soil rule
(lines 143-145) is the linear `σ' = clamp01(σ + 0.06·v - 0.04·σ)`. -/
def appStep (st : CAState) (R : ℚ) (N : Nat) (WOFF SOFF : List (Int × Int)) :
    CAState where
  v := fun i =>
    let y : Int := (i / N : Nat)
    let x : Int := (i % N : Nat)
    let vi := st.v i
    let wi := st.w i
    let si := st.σ i
    let vseed := kernelMean st.v N x y SOFF
    let growth := (4 : ℚ) * wi * si / (1 + 2 * wi)
    clamp01 (vi + growth * vi - 0.18 * vi + 0.01 * vseed * (1 - vi))
  w := fun i =>
    let y : Int := (i / N : Nat)
    let x : Int := (i % N : Nat)
    let vi := st.v i
    let wi := st.w i
    let si := st.σ i
    let wflow := kernelMean st.w N x y WOFF - wi
    let vLong := kernelMean st.v N x y WOFF
    clamp01 (wi + R - 0.45 * wi - vi * wi * (1 + si) - 0.6 * vLong * wi + 0.8 * wflow)
  σ := fun i =>
    let vi := st.v i
    let si := st.σ i
    clamp01 (si + 0.06 * vi - 0.04 * si)

/-- Sequential cell generation of part_002's `initState` (lines 80-93).  Each
cell consumes the same `rng()` draws the source does: one for the density
test, one more for `v` if vegetated, then exactly one each for `w` and `σ`,
branching on `v[i] > 0`. -/
def initLoop2 (d : ℚ) : Nat → Int → List (ℚ × ℚ × ℚ)
  | 0, _ => []
  | k + 1, s =>
    let sa := lcgNext s
    let vs : ℚ × Int := if rngVal sa < d then
        let sb := lcgNext sa
        (rngVal sb * 0.6 + 0.2, sb)
      else (0, sa)
    let sb := lcgNext vs.2
    let wi : ℚ := if vs.1 > 0 then 0.10 + rngVal sb * 0.15 else 0.45 + rngVal sb * 0.20
    let sc := lcgNext sb
    let σi : ℚ := if vs.1 > 0 then 0.40 + rngVal sc * 0.40 else 0.10 + rngVal sc * 0.20
    (vs.1, wi, σi) :: initLoop2 d k sc

/-- The `initState` of part_002: seed goes through `seed | 0`, then the cells are
generated sequentially; out-of-range reads default to 0. -/
def initState2 (N : Nat) (seed : Int) (d : ℚ) : CAState :=
  let cells := initLoop2 d (N * N) (toInt32 seed)
  { v := fun i => (cells.getD i (0, 0, 0)).1
    w := fun i => (cells.getD i (0, 0, 0)).2.1
    σ := fun i => (cells.getD i (0, 0, 0)).2.2 }

/-- Sequential cell generation of part_001's `initState` (lines 118-136):
`v = rng() < d ? 0.3 + rng()*0.2 : 0`, then unconditionally
`w = 0.3 + rng()*0.2` and `σ = 0.3 + rng()*0.2`. -/
def initLoop1 (d : ℚ) : Nat → Int → List (ℚ × ℚ × ℚ)
  | 0, _ => []
  | k + 1, s =>
    let sa := lcgNext s
    let vs : ℚ × Int := if rngVal sa < d then
        let sb := lcgNext sa
        (0.3 + rngVal sb * 0.2, sb)
      else (0, sa)
    let sb := lcgNext vs.2
    let wi : ℚ := 0.3 + rngVal sb * 0.2
    let sc := lcgNext sb
    let σi : ℚ := 0.3 + rngVal sc * 0.2
    (vs.1, wi, σi) :: initLoop1 d k sc

/-- The `initState` of part_001. -/
def initState1 (N : Nat) (seed : Int) (d : ℚ) : CAState :=
  let cells := initLoop1 d (N * N) (toInt32 seed)
  { v := fun i => (cells.getD i (0, 0, 0)).1
    w := fun i => (cells.getD i (0, 0, 0)).2.1
    σ := fun i => (cells.getD i (0, 0, 0)).2.2 }

/-- Number of `false` ("unvisited") entries of a visited buffer; the fuel
measure of the flood fill. -/
def countFalse : List Bool → Nat
  | [] => 0
  | b :: t => (if b = false then 1 else 0) + countFalse t

/-- The 4-connected neighbor directions `[[1,0],[-1,0],[0,1],[0,-1]]`
iterated by the flood fill. -/
def dirs4 : List (Int × Int) := [(1, 0), (-1, 0), (0, 1), (0, -1)]

/-- One neighbor test of the flood fill:
`if (!visited[ni] && v[ni] >= thr) { visited[ni] = 1; q.push(ni); }`.
Off-buffer reads default to visited (the source never performs any: `ni` is
always in range). -/
def pushNbr (thr : ℚ) (v : Nat → ℚ) (N : Nat) (cx cy : Int)
    (acc : List Bool × List Nat) (d : Int × Int) : List Bool × List Nat :=
  let ni := torIdx N cx cy d.1 d.2
  if acc.1.getD ni true = false ∧ thr ≤ v ni then (acc.1.set ni true, ni :: acc.2)
  else acc

/-- The inner `while (q.length)` loop of the clustering (part_002 lines
116-123, part_003 lines 128-136): pop the top of the stack, count it, mark
and push its unvisited above-threshold 4-neighbors.  The loop in the source
has no fuel; here each call consumes one unit and the totality theorem shows
`countFalse visited + stack.length` units always suffice. -/
def floodLoop (thr : ℚ) (v : Nat → ℚ) (N : Nat) :
    Nat → List Bool → List Nat → Nat → Option (List Bool × Nat)
  | _, visited, [], sz => some (visited, sz)
  | 0, _, _ :: _, _ => none
  | fuel + 1, visited, cur :: rest, sz =>
    let cy : Int := (cur / N : Nat)
    let cx : Int := (cur % N : Nat)
    let p := dirs4.foldl (pushNbr thr v N cx cy) (visited, rest)
    floodLoop thr v N fuel p.1 p.2 (sz + 1)

/-- The outer `for (start …)` loop of the clustering: skip cells below
threshold or already visited, otherwise flood-fill the component of `start`
and record its size. -/
def clusterLoop (thr : ℚ) (v : Nat → ℚ) (N : Nat) :
    List Nat → List Bool → List Nat → Option (List Bool × List Nat)
  | [], visited, sizes => some (visited, sizes)
  | start :: rest, visited, sizes =>
    if v start < thr ∨ visited.getD start true = true then
      clusterLoop thr v N rest visited sizes
    else
      match floodLoop thr v N (countFalse visited) (visited.set start true) [start] 0 with
      | none => none
      | some (vis, sz) => clusterLoop thr v N rest vis (sizes ++ [sz])

/-- The cluster-size list produced by the threshold flood-fill clustering of
part_002's `computeMetrics` / part_003's `computeClusterMetrics`, starting
from an all-unvisited buffer of `N*N` cells. -/
def clusterSizes (thr : ℚ) (v : Nat → ℚ) (N : Nat) : Option (List Nat) :=
  (clusterLoop thr v N (List.range (N * N)) (List.replicate (N * N) false) []).map
    Prod.snd

/-- Descending insertion of `sizes.sort((a, b) => b - a)`. -/
def insertDesc (a : Nat) : List Nat → List Nat
  | [] => [a]
  | b :: t => if b < a then a :: b :: t else b :: insertDesc a t

/-- Descending sort, `sizes.sort((a, b) => b - a)`. -/
def sortDesc : List Nat → List Nat
  | [] => []
  | a :: t => insertDesc a (sortDesc t)

/-- Cluster summary of part_003's `computeClusterMetrics` (lines 121-149):
mean, maximum and count of component sizes (its log-binned size histogram is
chart input only and is not modelled). -/
structure Cluster3 where
  meanCluster : ℚ
  maxCluster : Nat
  numClusters : Nat
deriving DecidableEq

/-- The `computeClusterMetrics` of part_003: threshold `0.15`, flood-fill sizes,
then `meanCluster = sizes.length ? sum/length : 0`,
`maxCluster = sizes[0] || 0` on the descending sort,
`numClusters = sizes.length`. -/
def computeClusterMetrics3 (v : Nat → ℚ) (N : Nat) : Option Cluster3 :=
  (clusterSizes 0.15 v N).map fun sizes =>
    let sorted := sortDesc sizes
    { meanCluster := if sorted.length = 0 then 0 else (sorted.sum : ℚ) / (sorted.length : ℚ)
      maxCluster := sorted.headD 0
      numClusters := sorted.length }

/-- The metrics record of part_002's `computeMetrics` (lines 95-129). -/
structure Metrics2 where
  vm : ℚ
  wm : ℚ
  sm : ℚ
  vvar : ℚ
  moran : ℚ
  maxCluster : Nat
  numClusters : Nat

/-- Grid-wide mean of `v` (`vS / (N*N)` in part_002's `computeMetrics`). -/
def vmean2 (st : CAState) (N : Nat) : ℚ :=
  (∑ i ∈ Finset.range (N * N), st.v i) / ((N * N : Nat) : ℚ)

/-- Grid-wide mean of `w`. -/
def wmean2 (st : CAState) (N : Nat) : ℚ :=
  (∑ i ∈ Finset.range (N * N), st.w i) / ((N * N : Nat) : ℚ)

/-- Grid-wide mean of `σ`. -/
def smean2 (st : CAState) (N : Nat) : ℚ :=
  (∑ i ∈ Finset.range (N * N), st.σ i) / ((N * N : Nat) : ℚ)

/-- Population variance of `v`: mean squared deviation over the `N²` cells
(`vvar += (v[i] - vm)**2` then `vvar /= N*N`). -/
def vvar2 (st : CAState) (N : Nat) : ℚ :=
  (∑ i ∈ Finset.range (N * N), (st.v i - vmean2 st N) ^ 2) / ((N * N : Nat) : ℚ)

/-- The Moran numerator: for every cell, the two unit-lag pairs `(+x, +y)`
with toroidal wraparound. -/
def moranSum2 (st : CAState) (N : Nat) : ℚ :=
  ∑ y ∈ Finset.range N, ∑ x ∈ Finset.range N,
    (([((1 : Int), (0 : Int)), (0, 1)]).map fun d =>
      (st.v (y * N + x) - vmean2 st N) * (st.v (torIdx N x y d.1 d.2) - vmean2 st N)).sum

/-- The Moran-style autocorrelation with its zero-variance sentinel:
`moran = vvar > 0 ? moran / (moranC * vvar) : 0`, with pair count
`moranC = 2·N²`. -/
def moran2 (st : CAState) (N : Nat) : ℚ :=
  if 0 < vvar2 st N then moranSum2 st N / (((2 * (N * N) : Nat) : ℚ) * vvar2 st N)
  else 0

/-- The `computeMetrics` of part_002: grid-wide means, population variance of
`v`, the two-pair Moran-style autocorrelation with the zero-variance
sentinel, and the flood-fill cluster summary at threshold `0.15`
(`maxCluster = sizes.length ? Math.max(...sizes) : 0`). -/
def computeMetrics2 (st : CAState) (N : Nat) : Metrics2 :=
  let sizes := (clusterSizes 0.15 st.v N).getD []
  { vm := vmean2 st N, wm := wmean2 st N, sm := smean2 st N
    vvar := vvar2 st N, moran := moran2 st N
    maxCluster := sizes.foldr Nat.max 0
    numClusters := sizes.length }

/-- One history record of the reference loop (part_002's `doStep`): the step
number and the metrics computed there.  The source stores `toFixed`-rounded
copies of the numeric fields for charting; the rounding is presentation and
is not modelled. -/
structure HistRec where
  t : Nat
  m : Metrics2

/-- State of the reference loop: the grid, the step counter `tick`, and the
bounded metrics history. -/
structure SimState where
  grid : CAState
  tick : Nat
  history : List HistRec

/-- The `doStep` of part_002 (lines 241-257): advance the grid one `caStep`,
increment `tick`, and on every 5th step append the fresh metrics to
`history` after truncating it to its last 300 records
(`setHistory(h => [...h.slice(-300), record])`). -/
def doStep (p : Params2) (N : Nat) (WOFF SOFF : List (Int × Int)) (s : SimState) :
    SimState :=
  let st := caStep2 s.grid p N WOFF SOFF
  let nt := s.tick + 1
  if nt % 5 = 0 then
    { grid := st, tick := nt
      history := s.history.drop (s.history.length - 300) ++ [⟨nt, computeMetrics2 st N⟩] }
  else
    { grid := st, tick := nt, history := s.history }

/-- The 5×5 synthetic input of the cluster-counting test: `v = 0.9` on the
2×2 block `{1,2} × {1,2}` (flat indices 6, 7, 11, 12), `v = 0` elsewhere. -/
def c6grid : Nat → ℚ := fun i => if i = 6 ∨ i = 7 ∨ i = 11 ∨ i = 12 then 0.9 else 0

/-- Mirror of `c6grid` with integer field values (`9` on the block, `0`
elsewhere) and threshold `1`: it induces the same threshold mask, and its
comparisons are kernel-computable (proof artifact only — the claims are
stated about `c6grid`). -/
def c6mask : Nat → ℚ := fun i => if i = 6 ∨ i = 7 ∨ i = 11 ∨ i = 12 then 9 else 0

/-- All-zero parameter set (part_002 shape), used for concrete runs. -/
def pZero2 : Params2 := ⟨0, 0, 0, 0, 0, 0, 0, 0⟩

/-- All-zero parameter set (part_001 shape), used for concrete runs. -/
def pZero1 : Params1 := ⟨0, 0, 0, 0, 0, 0, 0, 0⟩

/-- The all-zero grid state. -/
def zeroState : CAState := ⟨fun _ => 0, fun _ => 0, fun _ => 0⟩

/-! ## Helper lemmas -/

theorem clamp01_nonneg (x : ℚ) : 0 ≤ clamp01 x := le_max_left 0 _

theorem clamp01_le_one (x : ℚ) : clamp01 x ≤ 1 :=
  max_le (by norm_num) (min_le_left 1 x)

theorem clamp02_nonneg (x : ℚ) : 0 ≤ clamp02 x := le_max_left 0 _

theorem clamp02_le_two (x : ℚ) : clamp02 x ≤ 2 :=
  max_le (by norm_num) (min_le_left 2 x)

theorem clamp01_eq_self {x : ℚ} (h0 : 0 ≤ x) (h1 : x ≤ 1) : clamp01 x = x := by
  rw [clamp01, min_eq_right h1, max_eq_right h0]

theorem clamp02_eq_self {x : ℚ} (h0 : 0 ≤ x) (h2 : x ≤ 2) : clamp02 x = x := by
  rw [clamp02, min_eq_right h2, max_eq_right h0]

theorem caStep2_v_def (st : CAState) (p : Params2) (N : Nat)
    (WOFF SOFF : List (Int × Int)) (i : Nat) :
    (caStep2 st p N WOFF SOFF).v i
      = clamp01 (st.v i + p.alpha * st.v i * st.v i * st.w i * (1 + 0.5 * st.σ i)
          - p.mort * st.v i
          + p.eps * kernelMean st.v N ((i % N : Nat) : Int) ((i / N : Nat) : Int) SOFF
            * st.w i * (1 - st.v i)) := rfl

theorem caStep2_w_def (st : CAState) (p : Params2) (N : Nat)
    (WOFF SOFF : List (Int × Int)) (i : Nat) :
    (caStep2 st p N WOFF SOFF).w i
      = clamp02 (st.w i + p.R - p.E * st.w i - p.alpha * st.v i * st.v i * st.w i
          + p.wd * (kernelMean st.w N ((i % N : Nat) : Int) ((i / N : Nat) : Int) WOFF
            - st.w i)) := rfl

theorem caStep1_v_def (st : CAState) (p : Params1) (N : Nat)
    (WOFF SOFF : List (Int × Int)) (i : Nat) :
    (caStep1 st p N WOFF SOFF).v i
      = clamp01 (st.v i + (p.alpha * st.w i * st.σ i / (1 + p.beta * st.w i)) * st.v i
          - p.mort * st.v i
          + p.eps * kernelMean st.v N ((i % N : Nat) : Int) ((i / N : Nat) : Int) SOFF
            * (1 - st.v i)) := rfl

theorem caStep1_w_def (st : CAState) (p : Params1) (N : Nat)
    (WOFF SOFF : List (Int × Int)) (i : Nat) :
    (caStep1 st p N WOFF SOFF).w i
      = clamp01 (st.w i + p.R - p.E * st.w i - st.v i * st.w i * (1 + st.σ i)
          - 0.7 * kernelMean st.v N ((i % N : Nat) : Int) ((i / N : Nat) : Int) WOFF
            * st.w i
          + 0.8 * (kernelMean st.w N ((i % N : Nat) : Int) ((i / N : Nat) : Int) WOFF
            - st.w i)) := rfl

theorem kernelMean_const (g : Nat → ℚ) (c : ℚ) (hg : ∀ i, g i = c) (N : Nat)
    (x y : Int) (offs : List (Int × Int)) (h : offs ≠ []) :
    kernelMean g N x y offs = c := by
  rw [kernelMean, kernelSum]
  have hrep : (offs.map fun d => g (torIdx N x y d.1 d.2))
      = List.replicate offs.length c := by
    rw [← List.length_map offs (fun d => g (torIdx N x y d.1 d.2))]
    exact List.eq_replicate_of_mem (by
      intro b hb
      obtain ⟨d, _, rfl⟩ := List.mem_map.mp hb
      exact hg _)
  rw [hrep, List.sum_replicate, nsmul_eq_mul]
  have hlen : ((offs.length : ℚ)) ≠ 0 := by
    simpa [List.length_eq_zero] using h
  exact mul_div_cancel_left₀ c hlen

theorem kernelMean_zero (g : Nat → ℚ) (hg : ∀ i, g i = 0) (N : Nat)
    (x y : Int) (offs : List (Int × Int)) :
    kernelMean g N x y offs = 0 := by
  rw [kernelMean, kernelSum]
  rw [List.sum_eq_zero (by
    intro b hb
    obtain ⟨d, _, rfl⟩ := List.mem_map.mp hb
    exact hg _)]
  exact zero_div _

theorem caStep2_bounds (st : CAState) (p : Params2) (N : Nat)
    (WOFF SOFF : List (Int × Int)) (i : Nat) :
    0 ≤ (caStep2 st p N WOFF SOFF).v i ∧ (caStep2 st p N WOFF SOFF).v i ≤ 1 ∧
    0 ≤ (caStep2 st p N WOFF SOFF).σ i ∧ (caStep2 st p N WOFF SOFF).σ i ≤ 1 ∧
    0 ≤ (caStep2 st p N WOFF SOFF).w i ∧ (caStep2 st p N WOFF SOFF).w i ≤ 2 :=
  ⟨clamp01_nonneg _, clamp01_le_one _, clamp01_nonneg _, clamp01_le_one _,
   clamp02_nonneg _, clamp02_le_two _⟩

theorem caStep1_bounds (st : CAState) (p : Params1) (N : Nat)
    (WOFF SOFF : List (Int × Int)) (i : Nat) :
    0 ≤ (caStep1 st p N WOFF SOFF).v i ∧ (caStep1 st p N WOFF SOFF).v i ≤ 1 ∧
    0 ≤ (caStep1 st p N WOFF SOFF).σ i ∧ (caStep1 st p N WOFF SOFF).σ i ≤ 1 ∧
    0 ≤ (caStep1 st p N WOFF SOFF).w i ∧ (caStep1 st p N WOFF SOFF).w i ≤ 1 :=
  ⟨clamp01_nonneg _, clamp01_le_one _, clamp01_nonneg _, clamp01_le_one _,
   clamp01_nonneg _, clamp01_le_one _⟩

/-! ## C1 — domain invariant of the step kernels -/

/-- C1: every cell of the state returned by `caStep` satisfies the field
domains — `v, σ ∈ [0,1]` and `w` in the variant's water domain (`[0,2]` for
the part_002 kernel, `[0,1]` for the part_001 kernel) — for every input
state, every parameter set and every pair of offset lists; consequently the
bounds hold after any positive number of iterated steps. -/
theorem C1_domain_invariant (st : CAState) (p2 : Params2) (p1 : Params1) (N : Nat)
    (WOFF SOFF : List (Int × Int)) :
    (∀ i, 0 ≤ (caStep2 st p2 N WOFF SOFF).v i ∧ (caStep2 st p2 N WOFF SOFF).v i ≤ 1 ∧
          0 ≤ (caStep2 st p2 N WOFF SOFF).σ i ∧ (caStep2 st p2 N WOFF SOFF).σ i ≤ 1 ∧
          0 ≤ (caStep2 st p2 N WOFF SOFF).w i ∧ (caStep2 st p2 N WOFF SOFF).w i ≤ 2) ∧
    (∀ i, 0 ≤ (caStep1 st p1 N WOFF SOFF).v i ∧ (caStep1 st p1 N WOFF SOFF).v i ≤ 1 ∧
          0 ≤ (caStep1 st p1 N WOFF SOFF).σ i ∧ (caStep1 st p1 N WOFF SOFF).σ i ≤ 1 ∧
          0 ≤ (caStep1 st p1 N WOFF SOFF).w i ∧ (caStep1 st p1 N WOFF SOFF).w i ≤ 1) ∧
    (∀ k i,
      0 ≤ ((fun s => caStep2 s p2 N WOFF SOFF)^[k + 1] st).v i ∧
      ((fun s => caStep2 s p2 N WOFF SOFF)^[k + 1] st).v i ≤ 1 ∧
      0 ≤ ((fun s => caStep2 s p2 N WOFF SOFF)^[k + 1] st).σ i ∧
      ((fun s => caStep2 s p2 N WOFF SOFF)^[k + 1] st).σ i ≤ 1 ∧
      0 ≤ ((fun s => caStep2 s p2 N WOFF SOFF)^[k + 1] st).w i ∧
      ((fun s => caStep2 s p2 N WOFF SOFF)^[k + 1] st).w i ≤ 2) ∧
    (∀ k i,
      0 ≤ ((fun s => caStep1 s p1 N WOFF SOFF)^[k + 1] st).v i ∧
      ((fun s => caStep1 s p1 N WOFF SOFF)^[k + 1] st).v i ≤ 1 ∧
      0 ≤ ((fun s => caStep1 s p1 N WOFF SOFF)^[k + 1] st).σ i ∧
      ((fun s => caStep1 s p1 N WOFF SOFF)^[k + 1] st).σ i ≤ 1 ∧
      0 ≤ ((fun s => caStep1 s p1 N WOFF SOFF)^[k + 1] st).w i ∧
      ((fun s => caStep1 s p1 N WOFF SOFF)^[k + 1] st).w i ≤ 1) := by
  refine ⟨caStep2_bounds st p2 N WOFF SOFF, caStep1_bounds st p1 N WOFF SOFF,
    fun k i => ?_, fun k i => ?_⟩
  · rw [Function.iterate_succ_apply']
    exact caStep2_bounds _ p2 N WOFF SOFF i
  · rw [Function.iterate_succ_apply']
    exact caStep1_bounds _ p1 N WOFF SOFF i

/-! ## C3 — soil-quality update rule -/

/-- C3 counterexample: the claim fails on the cited src/App.jsx kernel
(lines 143-145).  On the one-cell state with `v = 1`, `w = 0`, `σ = 1/2`,
that kernel yields `σ' = clamp(1/2 + 0.06·1 - 0.04·(1/2)) = 0.54`, while
the claimed formula with its soil rates `γ⁺ = 0.06`, `γ⁻ = 0.04` gives
`clamp(1/2 + 0.06·1·(1 - 1/2) - 0.04·(1 - 1)·(1/2)) = 0.53`. -/
theorem C3_counterexample :
    (appStep ⟨fun _ => 1, fun _ => 0, fun _ => 1/2⟩ 0 1 [(0, 0)] [(0, 0)]).σ 0
      ≠ clamp01 ((1 : ℚ)/2 + 0.06 * 1 * (1 - 1/2) - 0.04 * (1 - 1) * (1/2)) := by
  have hL : (appStep ⟨fun _ => 1, fun _ => 0, fun _ => 1/2⟩ 0 1 [(0, 0)] [(0, 0)]).σ 0
      = 27/50 := by
    show clamp01 ((1 : ℚ)/2 + 0.06 * 1 - 0.04 * (1/2)) = 27/50
    rw [clamp01]
    norm_num [min_def, max_def]
  have hR : clamp01 ((1 : ℚ)/2 + 0.06 * 1 * (1 - 1/2) - 0.04 * (1 - 1) * (1/2))
      = 53/100 := by
    rw [clamp01]
    norm_num [min_def, max_def]
  rw [hL, hR]
  norm_num

/-- C3 (amended): for the part_001, part_002 and part_003 step kernels, the
next soil value at every cell equals
`clamp₀₁(σ + γ⁺·v·(1-σ) - γ⁻·(1-v)·σ)`; the src/App.jsx kernel instead uses
the linear rule `clamp₀₁(σ + 0.06·v - 0.04·σ)`. -/
theorem C3_soil_update (st : CAState) (p2 : Params2) (p1 : Params1) (N : Nat)
    (WOFF SOFF : List (Int × Int)) (i : Nat) :
    (caStep2 st p2 N WOFF SOFF).σ i
      = clamp01 (st.σ i + p2.gp * st.v i * (1 - st.σ i) - p2.gm * (1 - st.v i) * st.σ i) ∧
    (caStep1 st p1 N WOFF SOFF).σ i
      = clamp01 (st.σ i + p1.gp * st.v i * (1 - st.σ i) - p1.gm * (1 - st.v i) * st.σ i) ∧
    (caStep3 st p1 N WOFF SOFF).σ i
      = clamp01 (st.σ i + p1.gp * st.v i * (1 - st.σ i) - p1.gm * (1 - st.v i) * st.σ i) ∧
    (appStep st 0.25 N WOFF SOFF).σ i
      = clamp01 (st.σ i + 0.06 * st.v i - 0.04 * st.σ i) :=
  ⟨rfl, rfl, rfl, rfl⟩

/-! ## C4 — neighbor-offset builder -/

/-- C4: `buildOffsets r` contains exactly the integer pairs `(dx, dy)` with
`dx² + dy² ≤ r²`, each exactly once; in particular it contains `(0, 0)`, so
its length is at least 1 and the kernel's divisions by the offset-list
length never divide by zero. -/
theorem C4_buildOffsets (r : Nat) :
    (∀ p : Int × Int, p ∈ buildOffsets r ↔ p.1 * p.1 + p.2 * p.2 ≤ (r : Int) * r) ∧
    (buildOffsets r).Nodup ∧
    ((0, 0) : Int × Int) ∈ buildOffsets r ∧
    1 ≤ (buildOffsets r).length := by
  have key : ∀ p : Int × Int, p ∈ buildOffsets r ↔ p.1 * p.1 + p.2 * p.2 ≤ (r : Int) * r := by
    rintro ⟨a, b⟩
    constructor
    · intro h
      simp only [buildOffsets, List.mem_flatMap, List.mem_filterMap, List.mem_range] at h
      obtain ⟨dyi, _, dxi, _, hsome⟩ := h
      split at hsome
      · obtain ⟨rfl, rfl⟩ : (dxi : Int) - r = a ∧ (dyi : Int) - r = b := by
          have := Option.some.inj hsome
          exact ⟨congrArg Prod.fst this, congrArg Prod.snd this⟩
        assumption
      · exact absurd hsome (by simp)
    · intro h
      have hb2 : (0 : Int) ≤ b * b := mul_self_nonneg b
      have ha2 : (0 : Int) ≤ a * a := mul_self_nonneg a
      have ha : a ≤ (r : Int) := by nlinarith
      have ha' : -(r : Int) ≤ a := by nlinarith
      have hb : b ≤ (r : Int) := by nlinarith
      have hb' : -(r : Int) ≤ b := by nlinarith
      have ea : ((a + r).toNat : Int) - r = a := by omega
      have eb : ((b + r).toNat : Int) - r = b := by omega
      simp only [buildOffsets, List.mem_flatMap, List.mem_filterMap, List.mem_range]
      refine ⟨(b + r).toNat, by omega, (a + r).toNat, by omega, ?_⟩
      rw [ea, eb, if_pos h]
  refine ⟨key, ?_, ?_, ?_⟩
  · rw [buildOffsets, List.nodup_flatMap]
    constructor
    · intro dyi _
      refine (List.nodup_range _).filterMap ?_
      intro dxi dxi' q hq hq'
      simp only [Option.mem_def] at hq hq'
      split at hq
      · split at hq'
        · have e1 := congrArg Prod.fst (Option.some.inj hq)
          have e2 := congrArg Prod.fst (Option.some.inj hq')
          dsimp at e1 e2
          omega
        · exact absurd hq' (by simp)
      · exact absurd hq (by simp)
    · refine List.Pairwise.imp ?_ (List.nodup_range (2 * r + 1))
      intro dyi dyi' hne q hq hq'
      simp only [List.mem_filterMap, List.mem_range] at hq hq'
      obtain ⟨dxi, _, hs⟩ := hq
      obtain ⟨dxi', _, hs'⟩ := hq'
      split at hs
      · split at hs'
        · have e1 := congrArg Prod.snd (Option.some.inj hs)
          have e2 := congrArg Prod.snd (Option.some.inj hs')
          dsimp at e1 e2
          omega
        · exact absurd hs' (by simp)
      · exact absurd hs (by simp)
  · exact (key (0, 0)).mpr (by simpa using mul_self_nonneg (r : Int))
  · exact List.length_pos.mpr
      (List.ne_nil_of_mem ((key (0, 0)).mpr (by simpa using mul_self_nonneg (r : Int))))

/-! ## C2 — determinism and purity -/

/-- C2: the core functions are deterministic and pure.  In this embedding
`initState` and `caStep` are functions of their arguments alone (the source
reads no hidden state: the initializer's RNG is fully determined by the
seed), so calling either twice with identical (cell-wise identical) inputs
yields identical outputs; and `caStep` builds all three new fields from
reads of the old state only (it is a function of the old state's cell
values, stated below as: cell-wise equal old states give cell-wise equal new
states), the input state being untouched. -/
theorem C2_determinism (p2 : Params2) (p1 : Params1) (N : Nat)
    (WOFF SOFF : List (Int × Int)) :
    (∀ s₁ s₂ : CAState, (∀ i, s₁.v i = s₂.v i) → (∀ i, s₁.w i = s₂.w i) →
      (∀ i, s₁.σ i = s₂.σ i) →
      ∀ i, (caStep2 s₁ p2 N WOFF SOFF).v i = (caStep2 s₂ p2 N WOFF SOFF).v i ∧
           (caStep2 s₁ p2 N WOFF SOFF).w i = (caStep2 s₂ p2 N WOFF SOFF).w i ∧
           (caStep2 s₁ p2 N WOFF SOFF).σ i = (caStep2 s₂ p2 N WOFF SOFF).σ i) ∧
    (∀ s₁ s₂ : CAState, (∀ i, s₁.v i = s₂.v i) → (∀ i, s₁.w i = s₂.w i) →
      (∀ i, s₁.σ i = s₂.σ i) →
      ∀ i, (caStep1 s₁ p1 N WOFF SOFF).v i = (caStep1 s₂ p1 N WOFF SOFF).v i ∧
           (caStep1 s₁ p1 N WOFF SOFF).w i = (caStep1 s₂ p1 N WOFF SOFF).w i ∧
           (caStep1 s₁ p1 N WOFF SOFF).σ i = (caStep1 s₂ p1 N WOFF SOFF).σ i) ∧
    (∀ (N₁ N₂ : Nat) (seed₁ seed₂ : Int) (d₁ d₂ : ℚ),
      N₁ = N₂ → seed₁ = seed₂ → d₁ = d₂ →
      ∀ i, (initState2 N₁ seed₁ d₁).v i = (initState2 N₂ seed₂ d₂).v i ∧
           (initState2 N₁ seed₁ d₁).w i = (initState2 N₂ seed₂ d₂).w i ∧
           (initState2 N₁ seed₁ d₁).σ i = (initState2 N₂ seed₂ d₂).σ i) ∧
    (∀ (N₁ N₂ : Nat) (seed₁ seed₂ : Int) (d₁ d₂ : ℚ),
      N₁ = N₂ → seed₁ = seed₂ → d₁ = d₂ →
      ∀ i, (initState1 N₁ seed₁ d₁).v i = (initState1 N₂ seed₂ d₂).v i ∧
           (initState1 N₁ seed₁ d₁).w i = (initState1 N₂ seed₂ d₂).w i ∧
           (initState1 N₁ seed₁ d₁).σ i = (initState1 N₂ seed₂ d₂).σ i) := by
  have hext : ∀ s₁ s₂ : CAState, (∀ i, s₁.v i = s₂.v i) → (∀ i, s₁.w i = s₂.w i) →
      (∀ i, s₁.σ i = s₂.σ i) → s₁ = s₂ := by
    rintro ⟨v₁, w₁, σ₁⟩ ⟨v₂, w₂, σ₂⟩ hv hw hσ
    simp only [CAState.mk.injEq]
    exact ⟨funext hv, funext hw, funext hσ⟩
  refine ⟨?_, ?_, ?_, ?_⟩
  · intro s₁ s₂ hv hw hσ i
    rw [hext s₁ s₂ hv hw hσ]
    exact ⟨rfl, rfl, rfl⟩
  · intro s₁ s₂ hv hw hσ i
    rw [hext s₁ s₂ hv hw hσ]
    exact ⟨rfl, rfl, rfl⟩
  · rintro N₁ N₂ seed₁ seed₂ d₁ d₂ rfl rfl rfl i
    exact ⟨rfl, rfl, rfl⟩
  · rintro N₁ N₂ seed₁ seed₂ d₁ d₂ rfl rfl rfl i
    exact ⟨rfl, rfl, rfl⟩

/-- Witness for C2 at concrete inputs. -/
theorem C2_witness :
    ((caStep2 zeroState pZero2 1 [(0, 0)] [(0, 0)]).v 0
        = (caStep2 zeroState pZero2 1 [(0, 0)] [(0, 0)]).v 0 ∧
      (caStep2 zeroState pZero2 1 [(0, 0)] [(0, 0)]).w 0
        = (caStep2 zeroState pZero2 1 [(0, 0)] [(0, 0)]).w 0 ∧
      (caStep2 zeroState pZero2 1 [(0, 0)] [(0, 0)]).σ 0
        = (caStep2 zeroState pZero2 1 [(0, 0)] [(0, 0)]).σ 0) ∧
    ((initState2 2 42 0.28).v 0 = (initState2 2 42 0.28).v 0 ∧
      (initState2 2 42 0.28).w 0 = (initState2 2 42 0.28).w 0 ∧
      (initState2 2 42 0.28).σ 0 = (initState2 2 42 0.28).σ 0) :=
  ⟨(C2_determinism pZero2 pZero1 1 [(0, 0)] [(0, 0)]).1 zeroState zeroState
      (fun _ => rfl) (fun _ => rfl) (fun _ => rfl) 0,
   (C2_determinism pZero2 pZero1 1 [(0, 0)] [(0, 0)]).2.2.1 2 2 42 42 0.28 0.28
      rfl rfl rfl 0⟩

/-! ## C5 — conservation-absence sanity -/

/-- C5 counterexample: the claim fails on the cited part_001 kernel.  With
all of `R, E, alpha, mort, eps` zero (indeed every parameter zero), the
spatially uniform water field `w ≡ 1/2` and vegetation `v ≡ 1/2` on a 1×1
grid, one part_001 step moves the water cell from `1/2` to
`clamp(1/2 - (1/2)(1/2)(1+0) - 0.7·(1/2)(1/2)) = 3/40`: its local uptake
`v·w·(1+σ)` and long-range depletion `0.7·vLong·w` have hard-coded
coefficients that `alpha = mort = eps = 0` does not switch off. -/
theorem C5_counterexample :
    (caStep1 ⟨fun _ => 1/2, fun _ => 1/2, fun _ => 0⟩ pZero1 1 [(0, 0)] [(0, 0)]).w 0
      ≠ (1/2 : ℚ) := by
  rw [caStep1_w_def]
  rw [kernelMean_const _ (1/2) (fun _ => rfl) _ _ _ _ (by simp)]
  rw [clamp01]
  norm_num [pZero1, min_def, max_def]

/-- C5 (amended): with `R = 0`, `E = 0`, `alpha = 0`, `mort = 0`, `eps = 0`
and a spatially uniform in-domain water field, one application of the
part_002 kernel returns `v` and `w` unchanged at every cell (no drift from
the diffusion term against a uniform field).  For the part_001 kernel the
same holds only when the vegetation field is identically zero, because its
water uptake `v·w·(1+σ)` and long-range competition `0.7·vLong·w` are
hard-coded rather than scaled by the zeroed coefficients. -/
theorem C5_conservation :
    (∀ (p : Params2) (N : Nat) (WOFF SOFF : List (Int × Int)) (st : CAState) (c : ℚ),
      p.R = 0 → p.E = 0 → p.alpha = 0 → p.mort = 0 → p.eps = 0 →
      WOFF ≠ [] → (∀ i, st.w i = c) → 0 ≤ c → c ≤ 2 →
      (∀ i, 0 ≤ st.v i ∧ st.v i ≤ 1) →
      ∀ i, (caStep2 st p N WOFF SOFF).v i = st.v i ∧
           (caStep2 st p N WOFF SOFF).w i = st.w i) ∧
    (∀ (p : Params1) (N : Nat) (WOFF SOFF : List (Int × Int)) (st : CAState) (c : ℚ),
      p.R = 0 → p.E = 0 → p.alpha = 0 → p.mort = 0 → p.eps = 0 →
      WOFF ≠ [] → (∀ i, st.w i = c) → 0 ≤ c → c ≤ 1 →
      (∀ i, st.v i = 0) →
      ∀ i, (caStep1 st p N WOFF SOFF).v i = st.v i ∧
           (caStep1 st p N WOFF SOFF).w i = st.w i) := by
  constructor
  · intro p N WOFF SOFF st c hR hE hα hm hε hWO hw h0 h2 hv i
    constructor
    · rw [caStep2_v_def, hα, hm, hε]
      have : st.v i + 0 * st.v i * st.v i * st.w i * (1 + 0.5 * st.σ i) - 0 * st.v i
          + 0 * kernelMean st.v N ((i % N : Nat) : Int) ((i / N : Nat) : Int) SOFF
            * st.w i * (1 - st.v i) = st.v i := by ring
      rw [this]
      exact clamp01_eq_self (hv i).1 (hv i).2
    · rw [caStep2_w_def, hR, hE, hα,
        kernelMean_const st.w c hw N _ _ WOFF hWO, hw i]
      have : c + 0 - 0 * c - 0 * st.v i * st.v i * c + p.wd * (c - c) = c := by ring
      rw [this]
      exact clamp02_eq_self h0 h2
  · intro p N WOFF SOFF st c hR hE hα hm hε hWO hw h0 h1 hv i
    constructor
    · rw [caStep1_v_def, hα, hm, hε, hv i]
      have : (0 : ℚ) + (0 * st.w i * st.σ i / (1 + p.beta * st.w i)) * 0 - 0 * 0
          + 0 * kernelMean st.v N ((i % N : Nat) : Int) ((i / N : Nat) : Int) SOFF
            * (1 - 0) = 0 := by ring
      rw [this]
      exact clamp01_eq_self le_rfl zero_le_one
    · rw [caStep1_w_def, hR, hE, hv i,
        kernelMean_const st.w c hw N _ _ WOFF hWO,
        kernelMean_zero st.v hv N _ _ WOFF, hw i]
      have : c + 0 - 0 * c - 0 * c * (1 + st.σ i) - 0.7 * 0 * c + 0.8 * (c - c)
          = c := by ring
      rw [this]
      exact clamp01_eq_self h0 h1

/-- Witness for C5 at concrete inputs: uniform water `w ≡ 1`, `v ≡ 1/2` for
the part_002 kernel; the all-zero state for the part_001 kernel. -/
theorem C5_witness :
    ((caStep2 ⟨fun _ => 1/2, fun _ => 1, fun _ => 0⟩ pZero2 1 [(0, 0)] [(0, 0)]).v 0
        = (1/2 : ℚ) ∧
      (caStep2 ⟨fun _ => 1/2, fun _ => 1, fun _ => 0⟩ pZero2 1 [(0, 0)] [(0, 0)]).w 0
        = (1 : ℚ)) ∧
    ((caStep1 zeroState pZero1 1 [(0, 0)] [(0, 0)]).v 0 = (0 : ℚ) ∧
      (caStep1 zeroState pZero1 1 [(0, 0)] [(0, 0)]).w 0 = (0 : ℚ)) :=
  ⟨C5_conservation.1 pZero2 1 [(0, 0)] [(0, 0)]
      ⟨fun _ => 1/2, fun _ => 1, fun _ => 0⟩ 1 rfl rfl rfl rfl rfl (by simp)
      (fun _ => rfl) (by norm_num) (by norm_num)
      (fun _ => ⟨by norm_num, by norm_num⟩) 0,
   C5_conservation.2 pZero1 1 [(0, 0)] [(0, 0)] zeroState 0 rfl rfl rfl rfl rfl
      (by simp) (fun _ => rfl) le_rfl zero_le_one (fun _ => rfl) 0⟩

/-! ## C7 — zero-variance sentinel -/

theorem vvar2_uniform (st : CAState) (N : Nat) (c : ℚ) (h : ∀ i, st.v i = c) :
    vvar2 st N = 0 := by
  rcases Nat.eq_zero_or_pos N with hN | hN
  · subst hN
    simp [vvar2]
  · have hvm : vmean2 st N = c := by
      rw [vmean2, Finset.sum_congr rfl fun i _ => h i, Finset.sum_const,
        Finset.card_range, nsmul_eq_mul]
      exact mul_div_cancel_left₀ c (by positivity)
    rw [vvar2, Finset.sum_eq_zero fun i _ => by rw [h i, hvm]; ring]
    exact zero_div _

/-- C7: a spatially uniform vegetation field yields `vVariance = 0` and
`spatialAutocorr = 0` exactly; and whenever the computed variance is not
positive the autocorrelation is the defined sentinel `0` (the guarded
branch `moran / (moranC · vvar)` is never evaluated, so no division by
zero occurs). -/
theorem C7_zero_variance (st : CAState) (N : Nat) (c : ℚ) :
    ((∀ i, st.v i = c) →
      (computeMetrics2 st N).vvar = 0 ∧ (computeMetrics2 st N).moran = 0) ∧
    (¬ 0 < (computeMetrics2 st N).vvar → (computeMetrics2 st N).moran = 0) := by
  constructor
  · intro h
    have h0 : vvar2 st N = 0 := vvar2_uniform st N c h
    refine ⟨h0, ?_⟩
    show moran2 st N = 0
    rw [moran2, h0]
    simp
  · intro h
    show moran2 st N = 0
    exact if_neg h

/-- Witness for C7: the uniform field `v ≡ 3/4` on a 2×2 grid. -/
theorem C7_witness :
    (computeMetrics2 ⟨fun _ => 3/4, fun _ => 0, fun _ => 0⟩ 2).vvar = 0 ∧
    (computeMetrics2 ⟨fun _ => 3/4, fun _ => 0, fun _ => 0⟩ 2).moran = 0 :=
  (C7_zero_variance ⟨fun _ => 3/4, fun _ => 0, fun _ => 0⟩ 2 (3/4)).1 fun _ => rfl

/-! ## C8 — the initializer's LCG -/

/-- C8: the initializer's generator is the specified LCG.  One update
`s = (s * 1664525 + 1013904223) & 0xffffffff` produces a signed 32-bit value
(range `[-2^31, 2^31)`) whose residue class mod `2^32` is exactly
`1664525·s + 1013904223 (mod 2^32)`; and for any state in the signed 32-bit
range the intermediate `s * 1664525 + 1013904223` lies strictly between
`-2^53` and `2^53`, hence is exactly representable in the JS double. -/
theorem C8_lcg (s : Int) :
    lcgNext s % 2 ^ 32 = (s * 1664525 + 1013904223) % 2 ^ 32 ∧
    -(2 ^ 31) ≤ lcgNext s ∧ lcgNext s < 2 ^ 31 ∧
    (-(2 ^ 31) ≤ s → s < 2 ^ 31 →
      -(2 ^ 53) < s * 1664525 + 1013904223 ∧ s * 1664525 + 1013904223 < 2 ^ 53) := by
  unfold lcgNext toInt32
  refine ⟨?_, ?_, ?_, fun h1 h2 => ⟨?_, ?_⟩⟩ <;> omega

/-- Witness for C8 at the concrete state `s = -7`. -/
theorem C8_witness :
    lcgNext (-7) % 2 ^ 32 = ((-7) * 1664525 + 1013904223) % 2 ^ 32 ∧
    (-(2 ^ 53) < (-7 : Int) * 1664525 + 1013904223 ∧
      (-7 : Int) * 1664525 + 1013904223 < 2 ^ 53) :=
  ⟨(C8_lcg (-7)).1, (C8_lcg (-7)).2.2.2 (by norm_num) (by norm_num)⟩

/-! ## C9 — bounded metrics history -/

theorem doStep_tick (p : Params2) (N : Nat) (WOFF SOFF : List (Int × Int))
    (s : SimState) : (doStep p N WOFF SOFF s).tick = s.tick + 1 := by
  simp only [doStep]
  split <;> rfl

theorem doStep_histLen (p : Params2) (N : Nat) (WOFF SOFF : List (Int × Int))
    (s : SimState) :
    (doStep p N WOFF SOFF s).history.length
      = if (s.tick + 1) % 5 = 0 then min s.history.length 300 + 1
        else s.history.length := by
  simp only [doStep]
  split
  · simp only [List.length_append, List.length_drop, List.length_singleton]
    omega
  · rfl

theorem simRun_spec (p : Params2) (N : Nat) (WOFF SOFF : List (Int × Int))
    (g : CAState) (n : Nat) :
    ((doStep p N WOFF SOFF)^[n] ⟨g, 0, []⟩).tick = n ∧
    ((doStep p N WOFF SOFF)^[n] ⟨g, 0, []⟩).history.length = min (n / 5) 301 := by
  induction n with
  | zero => simp
  | succ n ih =>
    obtain ⟨ht, hl⟩ := ih
    rw [Function.iterate_succ_apply']
    refine ⟨by rw [doStep_tick, ht], ?_⟩
    rw [doStep_histLen, ht, hl]
    split <;> omega

/-- C9 counterexample: in the reference loop (tick 0, empty history), after
1505 steps — i.e. 301 metrics recordings — the history holds 301 records,
not at most 300: `[...h.slice(-300), record]` keeps 300 old records and
appends one more. -/
theorem C9_counterexample :
    ((doStep pZero2 1 [(0, 0)] [(0, 0)])^[1505] ⟨zeroState, 0, []⟩).history.length
      = 301 := by
  rw [(simRun_spec pZero2 1 [(0, 0)] [(0, 0)] zeroState 1505).2]
  norm_num

/-- C9 (amended): in the reference loop a metrics record is appended only on
every 5th step (on other steps the history is returned unchanged), and after
every step the history holds at most 301 records — the 300 retained by
`h.slice(-300)` plus the one just appended. -/
theorem C9_history (p : Params2) (N : Nat) (WOFF SOFF : List (Int × Int))
    (g : CAState) :
    (∀ n, ((doStep p N WOFF SOFF)^[n] ⟨g, 0, []⟩).history.length ≤ 301) ∧
    (∀ s : SimState, (s.tick + 1) % 5 ≠ 0 →
      (doStep p N WOFF SOFF s).history = s.history) := by
  constructor
  · intro n
    rw [(simRun_spec p N WOFF SOFF g n).2]
    omega
  · intro s hs
    simp only [doStep]
    split
    · exact absurd ‹_› hs
    · rfl

/-- Witness for C9 at concrete inputs: 7 steps of the reference loop, and
one non-recording step (tick 3 → 4). -/
theorem C9_witness :
    ((doStep pZero2 1 [(0, 0)] [(0, 0)])^[7] ⟨zeroState, 0, []⟩).history.length ≤ 301 ∧
    (doStep pZero2 1 [(0, 0)] [(0, 0)] ⟨zeroState, 3, []⟩).history = ([] : List HistRec) :=
  ⟨(C9_history pZero2 1 [(0, 0)] [(0, 0)] zeroState).1 7,
   (C9_history pZero2 1 [(0, 0)] [(0, 0)] zeroState).2 ⟨zeroState, 3, []⟩ (by norm_num)⟩

/-! ## C10 — flood-fill totality and pop-count bound

Every iteration of the inner while-loop pops one stack entry and pushes only
cells it has just flipped from unvisited to visited, so the measure
`countFalse visited + stack.length` strictly decreases: the loop terminates,
and the total number of pop-iterations is bounded by the number of cells. -/

theorem countFalse_set_true (l : List Bool) (n : Nat) (h : l.getD n true = false) :
    countFalse (l.set n true) + 1 = countFalse l := by
  induction l generalizing n with
  | nil => simp [List.getD] at h
  | cons b t ih =>
    cases n with
    | zero =>
      simp only [List.getD_cons_zero] at h
      subst h
      simp [countFalse]
      omega
    | succ n =>
      simp only [List.getD_cons_succ] at h
      simp only [List.set_cons_succ, countFalse]
      have := ih n h
      omega

theorem pushNbr_inv (thr : ℚ) (v : Nat → ℚ) (N : Nat) (cx cy : Int)
    (acc : List Bool × List Nat) (d : Int × Int) :
    countFalse (pushNbr thr v N cx cy acc d).1
      + (pushNbr thr v N cx cy acc d).2.length
      = countFalse acc.1 + acc.2.length := by
  simp only [pushNbr]
  split
  · rename_i h
    dsimp only
    simp only [List.length_cons]
    have := countFalse_set_true acc.1 _ h.1
    omega
  · rfl

theorem foldPush_inv (thr : ℚ) (v : Nat → ℚ) (N : Nat) (cx cy : Int)
    (ds : List (Int × Int)) :
    ∀ acc : List Bool × List Nat,
      countFalse (ds.foldl (pushNbr thr v N cx cy) acc).1
        + (ds.foldl (pushNbr thr v N cx cy) acc).2.length
      = countFalse acc.1 + acc.2.length := by
  induction ds with
  | nil => intro acc; rfl
  | cons d ds ih =>
    intro acc
    rw [List.foldl_cons, ih (pushNbr thr v N cx cy acc d), pushNbr_inv]

theorem floodLoop_isSome (thr : ℚ) (v : Nat → ℚ) (N : Nat) :
    ∀ (fuel : Nat) (visited : List Bool) (stack : List Nat) (sz : Nat),
      countFalse visited + stack.length ≤ fuel →
      ∃ r, floodLoop thr v N fuel visited stack sz = some r := by
  intro fuel
  induction fuel with
  | zero =>
    intro visited stack sz h
    cases stack with
    | nil => exact ⟨(visited, sz), rfl⟩
    | cons cur rest =>
      exfalso
      simp only [List.length_cons] at h
      omega
  | succ fuel ih =>
    intro visited stack sz h
    cases stack with
    | nil => exact ⟨(visited, sz), rfl⟩
    | cons cur rest =>
      simp only [floodLoop]
      apply ih
      rw [foldPush_inv]
      dsimp only
      simp only [List.length_cons] at h
      omega

theorem floodLoop_conserve (thr : ℚ) (v : Nat → ℚ) (N : Nat) :
    ∀ (fuel : Nat) (visited : List Bool) (stack : List Nat) (sz : Nat)
      (vis' : List Bool) (sz' : Nat),
      floodLoop thr v N fuel visited stack sz = some (vis', sz') →
      sz' + countFalse vis' = sz + countFalse visited + stack.length := by
  intro fuel
  induction fuel with
  | zero =>
    intro visited stack sz vis' sz' h
    cases stack with
    | nil =>
      simp only [floodLoop, Option.some.injEq, Prod.mk.injEq] at h
      obtain ⟨h1, h2⟩ := h
      subst h1
      subst h2
      simp
    | cons cur rest => simp [floodLoop] at h
  | succ fuel ih =>
    intro visited stack sz vis' sz' h
    cases stack with
    | nil =>
      simp only [floodLoop, Option.some.injEq, Prod.mk.injEq] at h
      obtain ⟨h1, h2⟩ := h
      subst h1
      subst h2
      simp
    | cons cur rest =>
      simp only [floodLoop] at h
      have h2 := ih _ _ _ _ _ h
      have h3 := foldPush_inv thr v N ((cur % N : Nat) : Int) ((cur / N : Nat) : Int)
        dirs4 (visited, rest)
      dsimp only at h3
      simp only [List.length_cons]
      omega

theorem clusterLoop_spec (thr : ℚ) (v : Nat → ℚ) (N : Nat) :
    ∀ (starts : List Nat) (visited : List Bool) (sizes : List Nat),
      ∃ vis' sizes', clusterLoop thr v N starts visited sizes = some (vis', sizes') ∧
        sizes'.sum + countFalse vis' = sizes.sum + countFalse visited := by
  intro starts
  induction starts with
  | nil => intro visited sizes; exact ⟨visited, sizes, rfl, rfl⟩
  | cons start rest ih =>
    intro visited sizes
    by_cases hc : v start < thr ∨ visited.getD start true = true
    · obtain ⟨vis', sizes', heq, hsum⟩ := ih visited sizes
      refine ⟨vis', sizes', ?_, hsum⟩
      simp only [clusterLoop]
      rw [if_pos hc]
      exact heq
    · have hgd : visited.getD start true = false := by
        rcases Bool.eq_false_or_eq_true (visited.getD start true) with h | h
        · exact absurd (Or.inr h) hc
        · exact h
      have hset := countFalse_set_true visited start hgd
      obtain ⟨⟨vis₁, sz₁⟩, hflood⟩ := floodLoop_isSome thr v N (countFalse visited)
        (visited.set start true) [start] 0 (by
          simp only [List.length_singleton]
          omega)
      have hcons := floodLoop_conserve thr v N (countFalse visited)
        (visited.set start true) [start] 0 vis₁ sz₁ hflood
      obtain ⟨vis', sizes', heq, hsum⟩ := ih vis₁ (sizes ++ [sz₁])
      refine ⟨vis', sizes', ?_, ?_⟩
      · simp only [clusterLoop]
        rw [if_neg hc, hflood]
        exact heq
      · rw [hsum, List.sum_append]
        simp only [List.sum_cons, List.sum_nil, List.length_singleton] at hcons ⊢
        omega

theorem countFalse_replicate (n : Nat) : countFalse (List.replicate n false) = n := by
  induction n with
  | zero => rfl
  | succ n ih =>
    simp [List.replicate_succ, countFalse, ih]
    omega

theorem pushNbr_congr (thr₁ thr₂ : ℚ) (v₁ v₂ : Nat → ℚ) (N : Nat) (cx cy : Int)
    (hle : ∀ i, thr₁ ≤ v₁ i ↔ thr₂ ≤ v₂ i) :
    pushNbr thr₁ v₁ N cx cy = pushNbr thr₂ v₂ N cx cy := by
  funext acc d
  simp only [pushNbr]
  exact if_congr (and_congr Iff.rfl (hle _)) rfl rfl

theorem floodLoop_congr (thr₁ thr₂ : ℚ) (v₁ v₂ : Nat → ℚ) (N : Nat)
    (hle : ∀ i, thr₁ ≤ v₁ i ↔ thr₂ ≤ v₂ i) :
    ∀ (fuel : Nat) (visited : List Bool) (stack : List Nat) (sz : Nat),
      floodLoop thr₁ v₁ N fuel visited stack sz
        = floodLoop thr₂ v₂ N fuel visited stack sz := by
  intro fuel
  induction fuel with
  | zero =>
    intro visited stack sz
    cases stack <;> rfl
  | succ fuel ih =>
    intro visited stack sz
    cases stack with
    | nil => rfl
    | cons cur rest =>
      simp only [floodLoop]
      rw [pushNbr_congr thr₁ thr₂ v₁ v₂ N _ _ hle]
      exact ih _ _ _

theorem clusterLoop_congr (thr₁ thr₂ : ℚ) (v₁ v₂ : Nat → ℚ) (N : Nat)
    (hlt : ∀ i, v₁ i < thr₁ ↔ v₂ i < thr₂)
    (hle : ∀ i, thr₁ ≤ v₁ i ↔ thr₂ ≤ v₂ i) :
    ∀ (starts : List Nat) (visited : List Bool) (sizes : List Nat),
      clusterLoop thr₁ v₁ N starts visited sizes
        = clusterLoop thr₂ v₂ N starts visited sizes := by
  intro starts
  induction starts with
  | nil => intro visited sizes; rfl
  | cons start rest ih =>
    intro visited sizes
    simp only [clusterLoop]
    by_cases hc : v₂ start < thr₂ ∨ visited.getD start true = true
    · rw [if_pos (hc.imp (hlt start).mpr id), if_pos hc]
      exact ih _ _
    · rw [if_neg (fun h => hc (h.imp (hlt start).mp id)), if_neg hc,
        floodLoop_congr thr₁ thr₂ v₁ v₂ N hle]
      cases hm : floodLoop thr₂ v₂ N (countFalse visited) (visited.set start true)
        [start] 0 with
      | none => rfl
      | some r =>
        cases r with
        | mk vis sz => exact ih _ _

theorem clusterSizes_congr (thr₁ thr₂ : ℚ) (v₁ v₂ : Nat → ℚ) (N : Nat)
    (hlt : ∀ i, v₁ i < thr₁ ↔ v₂ i < thr₂)
    (hle : ∀ i, thr₁ ≤ v₁ i ↔ thr₂ ≤ v₂ i) :
    clusterSizes thr₁ v₁ N = clusterSizes thr₂ v₂ N := by
  rw [clusterSizes, clusterSizes, clusterLoop_congr thr₁ thr₂ v₁ v₂ N hlt hle]

/-- C10: the iterative stack-based flood fill terminates on every input
grid — the clustering routine always returns a result — and the total
number of pop-iterations of its inner while-loop (the sum of all recorded
cluster sizes, since each pop increments the size counter exactly once) is
at most `N²`. -/
theorem C10_floodfill_total (thr : ℚ) (v : Nat → ℚ) (N : Nat) :
    ∃ sizes, clusterSizes thr v N = some sizes ∧ sizes.sum ≤ N * N := by
  obtain ⟨vis', sizes', heq, hsum⟩ := clusterLoop_spec thr v N (List.range (N * N))
    (List.replicate (N * N) false) []
  refine ⟨sizes', ?_, ?_⟩
  · rw [clusterSizes, heq]
    rfl
  · rw [countFalse_replicate] at hsum
    simp only [List.sum_nil] at hsum
    omega

/-! ## C6 — cluster counting on the synthetic 5×5 input -/

/-- C6: on the 5×5 grid that is zero except for a 2×2 block of `v = 0.9`
(above the threshold `0.15`), the flood-fill clustering of part_003 reports
exactly 1 component with maximum size 4 and mean size 4, and part_002's
metrics engine reports `numClusters = 1`, `maxCluster = 4`. -/
theorem C6_cluster_counting :
    computeClusterMetrics3 c6grid 5 = some ⟨4, 4, 1⟩ ∧
    (computeMetrics2 ⟨c6grid, fun _ => 0, fun _ => 0⟩ 5).numClusters = 1 ∧
    (computeMetrics2 ⟨c6grid, fun _ => 0, fun _ => 0⟩ 5).maxCluster = 4 := by
  have hlt : ∀ i, c6grid i < 0.15 ↔ c6mask i < 1 := by
    intro i
    by_cases h : i = 6 ∨ i = 7 ∨ i = 11 ∨ i = 12 <;>
      simp [c6grid, c6mask, h] <;> norm_num
  have hle : ∀ i, (0.15 : ℚ) ≤ c6grid i ↔ (1 : ℚ) ≤ c6mask i := by
    intro i
    by_cases h : i = 6 ∨ i = 7 ∨ i = 11 ∨ i = 12 <;>
      simp [c6grid, c6mask, h] <;> norm_num
  have hs : clusterSizes 0.15 c6grid 5 = some [4] := by
    rw [clusterSizes_congr 0.15 1 c6grid c6mask 5 hlt hle]
    decide
  refine ⟨?_, ?_, ?_⟩
  · rw [computeClusterMetrics3, hs]
    norm_num [sortDesc, insertDesc, Cluster3.mk.injEq]
  · show ((clusterSizes 0.15 c6grid 5).getD []).length = 1
    rw [hs]
    rfl
  · show ((clusterSizes 0.15 c6grid 5).getD []).foldr Nat.max 0 = 4
    rw [hs]
    rfl

end VegCA
